import Mathlib

/-!
A shallow embedding of the monster/combat/session subsystem of the
nightcrows server (the MonsterService in src/unnamed/part_002, the
GameService chat path in src/server/services/GameService.ts, and the
map-boundary utilities in src/unnamed/part_001), together with proofs
of the specification's testable properties.

Conventions:
* JS Date timestamps are natural numbers of milliseconds.
* JS numeric stats (hp, attack, defense, experience, gold) are integers;
  fractional values (spawn weights, level multipliers, coordinates) are
  rationals, with an explicit floor exactly where the source calls
  Math.floor.
* Each Math.random() call site receives its draw as an explicit rational
  parameter (in [0,1) where that matters to a statement).
* The registry Map<string, Monster> is a List Monster in insertion
  order; Map.set on an existing key updates in place, on a fresh key it
  appends at the end.
* WebSocket broadcasts are modelled as the list of emitted events, in
  emission order.
-/

inductive MonsterType
  | goblin | orc | skeleton | dragon | wolf | spider
  deriving DecidableEq, Repr

inductive MonsterState
  | idle | patrolling | chasing | attacking | dead
  deriving DecidableEq, Repr

/-- The position object {x, y, mapId} of a Monster. -/
structure WorldPos where
  x : ℚ
  y : ℚ
  mapId : ℕ
  deriving DecidableEq, Repr

/-- The Monster interface of MonsterService. -/
structure Monster where
  id : String
  name : String
  type : MonsterType
  level : ℕ
  hp : ℤ
  maxHp : ℤ
  mp : ℤ
  maxMp : ℤ
  attack : ℤ
  defense : ℤ
  experience : ℤ
  goldDrop : ℤ
  position : WorldPos
  state : MonsterState
  target : Option String
  lastAction : ℕ
  respawnTime : Option ℕ
  aggroRange : ℚ
  patrolRange : ℚ
  originalPosition : ℚ × ℚ
  deriving DecidableEq, Repr

/-- The events MonsterService broadcasts (broadcastToMap payloads). -/
inductive GameEvent
  | monsterSpawn (mapId : ℕ) (monsterId : String) (hp maxHp : ℤ) (state : MonsterState)
  | monsterDamaged (mapId : ℕ) (monsterId : String) (damage currentHp maxHp : ℤ)
  | monsterDied (mapId : ℕ) (monsterId : String) (killerId : ℕ) (experience gold : ℤ)
  | monsterAttack (mapId : ℕ) (monsterId : String) (targetId : String) (damage : ℤ)
  | monsterMoved (mapId : ℕ) (monsterId : String) (x y : ℚ)
  deriving DecidableEq, Repr

/-- Return type of damageMonster / killMonster. -/
structure DamageResult where
  killed : Bool
  experience : ℤ
  gold : ℤ
  deriving DecidableEq, Repr

/-- this.activeMonsters.get(monsterId) on the registry list. -/
def findMonster (reg : List Monster) (mid : String) : Option Monster :=
  reg.find? fun m => m.id == mid

/-- this.activeMonsters.set(monsterId, m') when monsterId is already present:
an in-place update of the entry with that key. -/
def setMonster (reg : List Monster) (mid : String) (m' : Monster) : List Monster :=
  reg.map fun x => if x.id = mid then m' else x

/-- MonsterService.killMonster: marks the monster dead, clears its target,
schedules respawn 30000 ms from now, broadcasts monster_died, and returns
the kill result carrying the monster's experience and goldDrop. -/
def killMonster (m : Monster) (killerId : ℕ) (now : ℕ) :
    Monster × DamageResult × List GameEvent :=
  let m' : Monster :=
    { m with state := MonsterState.dead, target := none, respawnTime := some (now + 30000) }
  (m', ⟨true, m'.experience, m'.goldDrop⟩,
    [GameEvent.monsterDied m'.position.mapId m'.id killerId m'.experience m'.goldDrop])

/-- MonsterService.damageMonster: looks the monster up, no-ops on a missing
or dead monster, otherwise applies defense-reduced damage (floor 1), clamps
hp at 0, retargets the attacker when the monster survives, broadcasts
monster_damaged, and takes the kill path when hp reached 0. -/
def damageMonster (reg : List Monster) (monsterId : String) (damage : ℤ)
    (attackerId : ℕ) (now : ℕ) : List Monster × DamageResult × List GameEvent :=
  match findMonster reg monsterId with
  | none => (reg, ⟨false, 0, 0⟩, [])
  | some m =>
    if m.state = MonsterState.dead then (reg, ⟨false, 0, 0⟩, [])
    else
      let actualDamage := max 1 (damage - m.defense)
      let m1 : Monster := { m with hp := max 0 (m.hp - actualDamage) }
      let m2 : Monster :=
        if 0 < m1.hp then
          { m1 with target := some (toString attackerId), state := MonsterState.chasing }
        else m1
      let dmgEv := GameEvent.monsterDamaged m2.position.mapId m2.id actualDamage m2.hp m2.maxHp
      if m2.hp ≤ 0 then
        let k := killMonster m2 attackerId now
        (setMonster reg monsterId k.1, k.2.1, dmgEv :: k.2.2)
      else
        (setMonster reg monsterId m2, ⟨false, 0, 0⟩, [dmgEv])

/-- The MonsterTemplate interface of MonsterService. -/
structure MonsterTemplate where
  name : String
  type : MonsterType
  baseLevel : ℕ
  levelVariance : ℕ
  baseHp : ℤ
  baseAttack : ℤ
  baseDefense : ℤ
  baseExperience : ℤ
  baseGold : ℤ
  aggroRange : ℚ
  patrolRange : ℚ
  attackSpeed : ℕ
  moveSpeed : ℚ
  spawnMaps : List ℕ
  spawnChance : ℚ
  deriving DecidableEq, Repr

/-- Template 1 of initializeMonsterTemplates. -/
def goblinTemplate : MonsterTemplate :=
  { name := "Goblin Warrior", type := MonsterType.goblin, baseLevel := 1, levelVariance := 3,
    baseHp := 50, baseAttack := 15, baseDefense := 5, baseExperience := 25, baseGold := 5,
    aggroRange := 50, patrolRange := 30, attackSpeed := 2000, moveSpeed := 25,
    spawnMaps := [1, 2], spawnChance := 8/10 }

/-- Template 2 of initializeMonsterTemplates. -/
def wolfTemplate : MonsterTemplate :=
  { name := "Forest Wolf", type := MonsterType.wolf, baseLevel := 3, levelVariance := 2,
    baseHp := 80, baseAttack := 25, baseDefense := 8, baseExperience := 45, baseGold := 8,
    aggroRange := 70, patrolRange := 50, attackSpeed := 1500, moveSpeed := 40,
    spawnMaps := [2], spawnChance := 6/10 }

/-- Template 3 of initializeMonsterTemplates. -/
def orcTemplate : MonsterTemplate :=
  { name := "Orc Berserker", type := MonsterType.orc, baseLevel := 8, levelVariance := 3,
    baseHp := 150, baseAttack := 40, baseDefense := 15, baseExperience := 100, baseGold := 20,
    aggroRange := 60, patrolRange := 40, attackSpeed := 2500, moveSpeed := 30,
    spawnMaps := [2, 3], spawnChance := 4/10 }

/-- Template 4 of initializeMonsterTemplates. -/
def skeletonTemplate : MonsterTemplate :=
  { name := "Ancient Skeleton", type := MonsterType.skeleton, baseLevel := 12, levelVariance := 4,
    baseHp := 200, baseAttack := 60, baseDefense := 20, baseExperience := 180, baseGold := 35,
    aggroRange := 80, patrolRange := 20, attackSpeed := 3000, moveSpeed := 20,
    spawnMaps := [3], spawnChance := 3/10 }

/-- Template 5 of initializeMonsterTemplates. -/
def spiderTemplate : MonsterTemplate :=
  { name := "Giant Spider", type := MonsterType.spider, baseLevel := 15, levelVariance := 2,
    baseHp := 250, baseAttack := 75, baseDefense := 25, baseExperience := 250, baseGold := 50,
    aggroRange := 90, patrolRange := 60, attackSpeed := 1800, moveSpeed := 35,
    spawnMaps := [3], spawnChance := 2/10 }

/-- Template 6 of initializeMonsterTemplates. -/
def dragonTemplate : MonsterTemplate :=
  { name := "Fire Dragon", type := MonsterType.dragon, baseLevel := 50, levelVariance := 10,
    baseHp := 2000, baseAttack := 300, baseDefense := 100, baseExperience := 5000,
    baseGold := 1000, aggroRange := 150, patrolRange := 100, attackSpeed := 4000,
    moveSpeed := 50, spawnMaps := [3], spawnChance := 1/100 }

/-- The six templates initializeMonsterTemplates loads, in source order. -/
def monsterTemplates : List MonsterTemplate :=
  [goblinTemplate, wolfTemplate, orcTemplate, skeletonTemplate, spiderTemplate,
   dragonTemplate]

/-- this.monsterTemplates.get(type): the template map is keyed by type. -/
def getTemplate (ty : MonsterType) : Option MonsterTemplate :=
  monsterTemplates.find? fun t => t.type == ty

/-- gameConfig.mapBoundaries, as (minX, maxX, minY, maxY). -/
def mapBoundaries (mapId : ℕ) : Option (ℚ × ℚ × ℚ × ℚ) :=
  if mapId = 1 then some (0, 1000, 0, 1000)
  else if mapId = 2 then some (0, 1500, 0, 1500)
  else if mapId = 3 then some (0, 2000, 0, 2000)
  else none

/-- GameUtils.isValidPosition. -/
def isValidPosition (x y : ℚ) (mapId : ℕ) : Bool :=
  match mapBoundaries mapId with
  | none => false
  | some (minX, maxX, minY, maxY) =>
    decide (minX ≤ x ∧ x ≤ maxX ∧ minY ≤ y ∧ y ≤ maxY)

/-- GameUtils.generateRandomPosition with its two Math.random() draws
passed in explicitly. -/
def generateRandomPosition (mapId : ℕ) (rx ry : ℚ) : ℚ × ℚ :=
  match mapBoundaries mapId with
  | none => (100, 100)
  | some (minX, maxX, minY, maxY) =>
    (rx * (maxX - minX) + minX, ry * (maxY - minY) + minY)

/-- MonsterService.spawnMonster. The generated id string
monster_<timestamp>_<suffix> is passed in as newId; the position and level
draws are explicit. -/
def spawnMonster (reg : List Monster) (t : MonsterTemplate) (mapId : ℕ)
    (newId : String) (rx ry levelRoll : ℚ) (now : ℕ) : List Monster × List GameEvent :=
  let position := generateRandomPosition mapId rx ry
  let level := t.baseLevel + (⌊levelRoll * (t.levelVariance : ℚ)⌋).toNat
  let levelMultiplier : ℚ := 1 + ((level : ℚ) - (t.baseLevel : ℚ)) * (2/10)
  let monster : Monster :=
    { id := newId, name := t.name, type := t.type, level := level,
      hp := ⌊(t.baseHp : ℚ) * levelMultiplier⌋,
      maxHp := ⌊(t.baseHp : ℚ) * levelMultiplier⌋,
      mp := 50, maxMp := 50,
      attack := ⌊(t.baseAttack : ℚ) * levelMultiplier⌋,
      defense := ⌊(t.baseDefense : ℚ) * levelMultiplier⌋,
      experience := ⌊(t.baseExperience : ℚ) * levelMultiplier⌋,
      goldDrop := ⌊(t.baseGold : ℚ) * levelMultiplier⌋,
      position := ⟨position.1, position.2, mapId⟩,
      state := MonsterState.idle, target := none, lastAction := now, respawnTime := none,
      aggroRange := t.aggroRange, patrolRange := t.patrolRange,
      originalPosition := position }
  (reg ++ [monster],
   [GameEvent.monsterSpawn mapId monster.id monster.hp monster.maxHp monster.state])

/-- The field resets MonsterService.respawnMonster applies to the monster
it found. -/
def respawnReset (m : Monster) (now : ℕ) : Monster :=
  { m with hp := m.maxHp, mp := m.maxMp, state := MonsterState.idle, target := none,
           position := { m.position with x := m.originalPosition.1,
                                         y := m.originalPosition.2 },
           respawnTime := none, lastAction := now }

/-- MonsterService.respawnMonster: no-op on a missing id, otherwise resets
the monster in place and broadcasts one monster_spawn. -/
def respawnMonster (reg : List Monster) (mid : String) (now : ℕ) :
    List Monster × List GameEvent :=
  match findMonster reg mid with
  | none => (reg, [])
  | some m =>
    let m' := respawnReset m now
    (setMonster reg mid m',
     [GameEvent.monsterSpawn m'.position.mapId m'.id m'.hp m'.maxHp m'.state])

/-- The damage value performMonsterAttack rolls:
monster.attack + Math.floor(Math.random() * 10) - 5. -/
def monsterAttackDamage (attack : ℤ) (roll : ℚ) : ℤ :=
  attack + ⌊roll * 10⌋ - 5

/-- MonsterService.performMonsterAttack: no-op without a target; otherwise
broadcasts monster_attack carrying the variance-rolled damage, then reverts
to chasing when the continue roll lands below 0.3. -/
def performMonsterAttack (m : Monster) (dmgRoll contRoll : ℚ) :
    Monster × List GameEvent :=
  match m.target with
  | none => (m, [])
  | some targetId =>
    let damage := monsterAttackDamage m.attack dmgRoll
    let m' := if contRoll < 3/10 then { m with state := MonsterState.chasing } else m
    (m', [GameEvent.monsterAttack m.position.mapId m.id targetId damage])

/-- Squared Euclidean distance; the source compares
GameUtils.getDistance (a square root) against nonnegative ranges, which is
equivalent to comparing this against the squared range. -/
def distSq (x1 y1 x2 y2 : ℚ) : ℚ :=
  (x2 - x1) ^ 2 + (y2 - y1) ^ 2

/-- MonsterService.moveMonsterTowards. dist is the Euclidean distance
from the monster to (tx, ty), passed in as a parameter because it is
irrational in general; no claim below depends on this branch. -/
def moveMonsterTowards (m : Monster) (tx ty dist : ℚ) (t : MonsterTemplate) :
    Monster × List GameEvent :=
  if dist = 0 then (m, [])
  else
    let moveDistance := t.moveSpeed * (1/2)
    let ratio := min (moveDistance / dist) 1
    let newX := m.position.x + (tx - m.position.x) * ratio
    let newY := m.position.y + (ty - m.position.y) * ratio
    if isValidPosition newX newY m.position.mapId then
      ({ m with position := { m.position with x := newX, y := newY } },
       [GameEvent.monsterMoved m.position.mapId m.id newX newY])
    else (m, [])

/-- The Math.random() draws a single monster's evaluation inside
updateMonsters can consume, plus the two geometric quantities the source
derives from a draw or a square root: the random patrol direction
(cos θ, sin θ) and the Euclidean distance to the patrol anchor. -/
structure TickDraws where
  idleRoll : ℚ
  patrolDir : ℚ × ℚ
  anchorDist : ℚ
  patrolIdleRoll : ℚ
  aggroRoll : ℚ
  aggroTargetRoll : ℕ
  attackDmgRoll : ℚ
  attackContRoll : ℚ
  deriving DecidableEq, Repr

/-- MonsterService.handleIdleState: 30% chance to start patrolling. -/
def handleIdleState (m : Monster) (d : TickDraws) : Monster :=
  if d.idleRoll < 3/10 then { m with state := MonsterState.patrolling } else m

/-- MonsterService.handlePatrolState: return toward the anchor when beyond
patrolRange, else take a random half-second step if the destination is
valid; finally a 20% chance to go idle. -/
def handlePatrolState (m : Monster) (d : TickDraws) : Monster × List GameEvent :=
  match getTemplate m.type with
  | none => (m, [])
  | some t =>
    let stepped :=
      if distSq m.position.x m.position.y m.originalPosition.1 m.originalPosition.2 >
          m.patrolRange ^ 2 then
        moveMonsterTowards m m.originalPosition.1 m.originalPosition.2 d.anchorDist t
      else
        let moveDistance := t.moveSpeed * (1/2)
        let newX := m.position.x + d.patrolDir.1 * moveDistance
        let newY := m.position.y + d.patrolDir.2 * moveDistance
        if isValidPosition newX newY m.position.mapId then
          ({ m with position := { m.position with x := newX, y := newY } },
           [GameEvent.monsterMoved m.position.mapId m.id newX newY])
        else (m, [])
    if d.patrolIdleRoll < 2/10 then
      ({ stepped.1 with state := MonsterState.idle }, stepped.2)
    else stepped

/-- MonsterService.handleChaseState: drops to idle without a target; gives
the chase up (patrolling, target cleared) when now − lastAction exceeds
10000 ms; otherwise goes straight to attacking. -/
def handleChaseState (m : Monster) (now : ℕ) : Monster :=
  match m.target with
  | none => { m with state := MonsterState.idle }
  | some _ =>
    match getTemplate m.type with
    | none => m
    | some _ =>
      if now - m.lastAction > 10000 then
        { m with state := MonsterState.patrolling, target := none }
      else
        { m with state := MonsterState.attacking }

/-- MonsterService.handleAttackState: drops to idle without a target;
attacks only once now − lastAction reaches the template's attackSpeed,
restamping lastAction when it does. -/
def handleAttackState (m : Monster) (now : ℕ) (d : TickDraws) :
    Monster × List GameEvent :=
  match m.target with
  | none => ({ m with state := MonsterState.idle }, [])
  | some _ =>
    match getTemplate m.type with
    | none => (m, [])
    | some t =>
      if now - m.lastAction ≥ t.attackSpeed then
        let r := performMonsterAttack m d.attackDmgRoll d.attackContRoll
        ({ r.1 with lastAction := now }, r.2)
      else (m, [])

/-- MonsterService.checkForPlayerAggro: 5% chance to start chasing a
synthetic player_<n> target, n = Math.floor(Math.random() * 1000). -/
def checkForPlayerAggro (m : Monster) (d : TickDraws) : Monster :=
  if d.aggroRoll < 5/100 then
    { m with state := MonsterState.chasing,
             target := some ("player_" ++ toString (d.aggroTargetRoll % 1000)) }
  else m

/-- The body of the updateMonsters loop for one monster: a dead monster
only respawns once now passes its respawnTime (and is otherwise skipped);
a live monster runs its state handler, then the aggro check when it is
idle or patrolling afterwards, and finally gets lastAction stamped to
now. -/
def updateMonster (m : Monster) (now : ℕ) (d : TickDraws) :
    Monster × List GameEvent :=
  if m.state = MonsterState.dead then
    match m.respawnTime with
    | some t =>
      if now > t then
        let m' := respawnReset m now
        (m', [GameEvent.monsterSpawn m'.position.mapId m'.id m'.hp m'.maxHp m'.state])
      else (m, [])
    | none => (m, [])
  else
    let stepped : Monster × List GameEvent :=
      match m.state with
      | MonsterState.idle => (handleIdleState m d, [])
      | MonsterState.patrolling => handlePatrolState m d
      | MonsterState.chasing => (handleChaseState m now, [])
      | MonsterState.attacking => handleAttackState m now d
      | MonsterState.dead => (m, [])
    let aggroed :=
      if stepped.1.state = MonsterState.idle ∨ stepped.1.state = MonsterState.patrolling
      then checkForPlayerAggro stepped.1 d
      else stepped.1
    ({ aggroed with lastAction := now }, stepped.2)

/-- n successive game-loop evaluations of one monster, ticking at
start + step, start + 2·step, …; draws gives each tick its random draws.
Returns the final monster and every event emitted along the way. -/
def tickTrajectory (m : Monster) (start step : ℕ) (draws : ℕ → TickDraws) :
    ℕ → Monster × List GameEvent
  | 0 => (m, [])
  | n + 1 =>
    let prev := tickTrajectory m start step draws n
    let r := updateMonster prev.1 (start + step * (n + 1)) (draws n)
    (r.1, prev.2 ++ r.2)

/-- The per-map census checkSpawning computes (monsterCountPerMap): the
number of non-dead monsters on a map. -/
def monsterCountOnMap (reg : List Monster) (mapId : ℕ) : ℕ :=
  (reg.filter fun m =>
    decide (m.state ≠ MonsterState.dead ∧ m.position.mapId = mapId)).length

/-- The cumulative-subtraction weighted selection loop of
trySpawnMonster: subtract each candidate's spawnChance from the draw in
turn until the remainder falls to 0 or below. -/
def weightedSelect : List MonsterTemplate → ℚ → Option MonsterTemplate
  | [], _ => none
  | t :: ts, r =>
    if r - t.spawnChance ≤ 0 then some t else weightedSelect ts (r - t.spawnChance)

/-- The Math.random() draws one trySpawnMonster call can consume, plus the
generated monster id. -/
structure SpawnDraws where
  selectRoll : ℚ
  gateRoll : ℚ
  levelRoll : ℚ
  posRollX : ℚ
  posRollY : ℚ
  newId : String
  deriving DecidableEq, Repr

/-- MonsterService.trySpawnMonster: weighted-random template selection over
the templates eligible for the map, then a 10% gate before actually
spawning. -/
def trySpawnMonster (reg : List Monster) (mapId : ℕ) (d : SpawnDraws) (now : ℕ) :
    List Monster × List GameEvent :=
  let availableTemplates := monsterTemplates.filter fun t => decide (mapId ∈ t.spawnMaps)
  if availableTemplates = [] then (reg, [])
  else
    let totalWeight := (availableTemplates.map fun t => t.spawnChance).sum
    match weightedSelect availableTemplates (d.selectRoll * totalWeight) with
    | none => (reg, [])
    | some t =>
      if d.gateRoll > 1/10 then (reg, [])
      else spawnMonster reg t mapId d.newId d.posRollX d.posRollY d.levelRoll now

/-- One iteration of the checkSpawning map loop: attempt one spawn on
mapId, but only when the base registry's non-dead census there (computed
at the start of the check, before any spawning) is below the cap of 20. -/
def spawnStep (reg : List Monster) (now : ℕ) (draws : ℕ → SpawnDraws)
    (acc : List Monster × List GameEvent) (mapId : ℕ) :
    List Monster × List GameEvent :=
  if monsterCountOnMap reg mapId < 20 then
    let r := trySpawnMonster acc.1 mapId (draws mapId) now
    (r.1, acc.2 ++ r.2)
  else acc

/-- MonsterService.checkSpawning: gated to once per 5000 ms; computes each
map's non-dead census from the registry as it stood at the start of the
check, then attempts one spawn on each of maps 1..3 whose census is below
the cap of 20. -/
def checkSpawning (reg : List Monster) (lastSpawnCheck now : ℕ)
    (draws : ℕ → SpawnDraws) : List Monster × List GameEvent :=
  if now - lastSpawnCheck < 5000 then (reg, [])
  else (List.range' 1 3).foldl (spawnStep reg now draws) (reg, [])

/-- MonsterService.getActiveMonsters. -/
def getActiveMonsters (reg : List Monster) (mapId : Option ℕ) : List Monster :=
  match mapId with
  | some mid =>
    reg.filter fun m => decide (m.position.mapId = mid ∧ m.state ≠ MonsterState.dead)
  | none => reg.filter fun m => decide (m.state ≠ MonsterState.dead)

/-- MonsterService.getStats: one pass over the registry accumulating the
total and the per-map / per-type histograms; the JS object maps become
functions that are zero away from the keys ever touched. -/
def getStats (reg : List Monster) : ℕ × (ℕ → ℕ) × (MonsterType → ℕ) :=
  reg.foldl
    (fun s m =>
      if m.state ≠ MonsterState.dead then
        (s.1 + 1,
         Function.update s.2.1 m.position.mapId (s.2.1 m.position.mapId + 1),
         Function.update s.2.2 m.type (s.2.2 m.type + 1))
      else s)
    (0, fun _ => 0, fun _ => 0)

/-- The selected-character slice of a GameService PlayerSession. -/
structure CharacterInfo where
  id : ℕ
  name : String
  mapId : ℕ
  deriving DecidableEq, Repr

/-- A GameService PlayerSession; the connection is identified by wsId and
wsOpen models ws.readyState === WebSocket.OPEN. -/
structure Session where
  wsId : ℕ
  wsOpen : Bool
  userId : ℕ
  character : Option CharacterInfo
  deriving DecidableEq, Repr

/-- GameService.broadcast: every session whose socket is open receives the
message; returns the receiving wsIds in registry order. -/
def broadcastRecipients (sessions : List Session) : List ℕ :=
  (sessions.filter fun s => s.wsOpen).map fun s => s.wsId

/-- Whether a session has a selected character on the given map. -/
def sessionOnMap (s : Session) (mapId : ℕ) : Bool :=
  match s.character with
  | some c => c.mapId == mapId
  | none => false

/-- GameService.broadcastToMap: delivers to open sessions holding a
character on the given map, minus the optionally excluded socket. -/
def broadcastToMapRecipients (sessions : List Session) (mapId : ℕ)
    (excludeWs : Option ℕ) : List ℕ :=
  (sessions.filter fun s =>
      (match excludeWs with | some e => s.wsId != e | none => true) &&
      sessionOnMap s mapId && s.wsOpen).map fun s => s.wsId

/-- GameService.handleChat reduced to its delivery fan-out: the wsIds the
chat_message reaches. A sender without a session or selected character, an
empty message (falsy in JS) or one longer than 500 characters delivers
nowhere; channel global broadcasts to everyone, map to the sender's
character's map (no exclusion), anything else echoes to the sender. -/
def handleChatRecipients (sessions : List Session) (senderWs : ℕ)
    (message : String) (channel : String) : List ℕ :=
  match sessions.find? fun s => s.wsId == senderWs with
  | none => []
  | some s =>
    match s.character with
    | none => []
    | some c =>
      if message = "" ∨ message.length > 500 then []
      else if channel = "global" then broadcastRecipients sessions
      else if channel = "map" then broadcastToMapRecipients sessions c.mapId none
      else if s.wsOpen then [senderWs] else []

/-- A full-health Goblin Warrior used as a concrete witness input
(hp 50, defense 5, as in the spec's surviving-hit scenario). -/
def gobFull : Monster :=
  { id := "m1", name := "Goblin Warrior", type := MonsterType.goblin, level := 1,
    hp := 50, maxHp := 50, mp := 50, maxMp := 50, attack := 15, defense := 5,
    experience := 25, goldDrop := 5, position := ⟨100, 100, 1⟩,
    state := MonsterState.idle, target := none, lastAction := 0, respawnTime := none,
    aggroRange := 50, patrolRange := 30, originalPosition := (100, 100) }

/-- A wounded Goblin Warrior used as a concrete witness input
(hp 10, defense 5, as in the spec's killing-hit scenario). -/
def gobWeak : Monster :=
  { gobFull with hp := 10 }

/-- A Goblin Warrior that has just entered the chasing state holding a
target, used to exercise the chase-timeout path of the tick loop. -/
def gobChasing : Monster :=
  { gobFull with state := MonsterState.chasing, target := some "player_42" }

/-- A dead Goblin Warrior awaiting respawn at t = 31000, used as a
concrete witness input. -/
def gobDead : Monster :=
  { gobWeak with
    hp := 0, state := MonsterState.dead, target := none,
    respawnTime := some 31000 }

/-- A chasing monster whose attack stat is 3; the Monster interface puts
no lower bound on attack, and performMonsterAttack applies no clamp. -/
def gobFeeble : Monster :=
  { gobChasing with attack := 3 }

/-- Draws under which no probabilistic transition fires (all rolls 1, that
is, at the top of the [0,1) range). -/
def quietDraws : ℕ → TickDraws :=
  fun _ => { idleRoll := 1, patrolDir := (1, 0), anchorDist := 0, patrolIdleRoll := 1,
             aggroRoll := 1, aggroTargetRoll := 42, attackDmgRoll := 1, attackContRoll := 1 }

/-- Witness session: the sender, open socket, character on map 1. -/
def senderSession : Session :=
  { wsId := 1, wsOpen := true, userId := 10, character := some ⟨100, "Ash", 1⟩ }

/-- Witness session: open socket, character on the sender's map 1. -/
def mateSession : Session :=
  { wsId := 2, wsOpen := true, userId := 11, character := some ⟨101, "Bo", 1⟩ }

/-- Witness session: open socket, character on a different map 2. -/
def farSession : Session :=
  { wsId := 3, wsOpen := true, userId := 12, character := some ⟨102, "Cy", 2⟩ }

/-- Witness session: open socket, no character selected. -/
def lobbySession : Session :=
  { wsId := 4, wsOpen := true, userId := 13, character := none }

/-- Witness session: closed socket, character on the sender's map 1. -/
def closedSession : Session :=
  { wsId := 5, wsOpen := false, userId := 14, character := some ⟨103, "Dee", 1⟩ }

/-- The session registry the chat witness runs against. -/
def demoSessions : List Session :=
  [senderSession, mateSession, farSession, lobbySession, closedSession]

/-- Spawn draws whose 10% gate roll fails (1 > 0.1), so no spawn occurs;
used by the census witness. -/
def demoSpawnDraws : ℕ → SpawnDraws :=
  fun _ => { selectRoll := 0, gateRoll := 1, levelRoll := 0, posRollX := 0,
             posRollY := 0, newId := "m9" }

/-- A lookup that succeeds keeps succeeding after an in-place update whose
replacement carries the looked-up key. -/
theorem findMonster_setMonster (reg : List Monster) (mid : String) (m' : Monster)
    (hex : (findMonster reg mid).isSome) (hid : m'.id = mid) :
    findMonster (setMonster reg mid m') mid = some m' := by
  induction reg with
  | nil => simp [findMonster] at hex
  | cons a l ih =>
    by_cases h : a.id = mid
    · simp [findMonster, setMonster, h, hid]
    · have h' : (a.id == mid) = false := by simp [h]
      simp only [findMonster, setMonster, List.map_cons, List.find?_cons, if_neg h, h'] at *
      exact ih hex

/-- The monster returned by a successful lookup carries the looked-up key. -/
theorem findMonster_id (reg : List Monster) (mid : String) (m : Monster)
    (h : findMonster reg mid = some m) : m.id = mid := by
  have := List.find?_some h
  simpa using this

/-- damageMonster on an absent id is a pure no-op with a zero result. -/
theorem damageMonster_not_found (reg : List Monster) (mid : String) (d : ℤ) (aid now : ℕ)
    (h : findMonster reg mid = none) :
    damageMonster reg mid d aid now = (reg, ⟨false, 0, 0⟩, []) := by
  simp [damageMonster, h]

/-- damageMonster on a dead monster is a pure no-op with a zero result. -/
theorem damageMonster_dead (reg : List Monster) (mid : String) (m : Monster)
    (d : ℤ) (aid now : ℕ)
    (hfind : findMonster reg mid = some m) (hdead : m.state = MonsterState.dead) :
    damageMonster reg mid d aid now = (reg, ⟨false, 0, 0⟩, []) := by
  simp [damageMonster, hfind, hdead]

/-- Normal form of damageMonster on a live monster whose hp does not survive
the hit: hp clamps to 0, the monster is marked dead with a respawn deadline
30000 ms out, the kill payout is returned, and monster_damaged then
monster_died are broadcast. -/
theorem damageMonster_live_kill (reg : List Monster) (mid : String) (m : Monster)
    (d : ℤ) (aid now : ℕ)
    (hfind : findMonster reg mid = some m) (hlive : m.state ≠ MonsterState.dead)
    (hk : m.hp ≤ max 1 (d - m.defense)) :
    damageMonster reg mid d aid now =
      (setMonster reg mid
        { m with hp := 0, state := MonsterState.dead, target := none,
                 respawnTime := some (now + 30000) },
       ⟨true, m.experience, m.goldDrop⟩,
       [GameEvent.monsterDamaged m.position.mapId m.id (max 1 (d - m.defense)) 0 m.maxHp,
        GameEvent.monsterDied m.position.mapId m.id aid m.experience m.goldDrop]) := by
  have hH : max 0 (m.hp - max 1 (d - m.defense)) = 0 :=
    max_eq_left (sub_nonpos.mpr hk)
  simp only [damageMonster, hfind]
  rw [if_neg hlive]
  simp only [killMonster, hH, lt_irrefl, if_false, le_refl, if_true]

/-- Normal form of damageMonster on a live monster that survives the hit:
hp drops by the defense-reduced damage, the monster retargets the attacker
and starts chasing, a zero result is returned, and a single monster_damaged
event is broadcast. -/
theorem damageMonster_live_survive (reg : List Monster) (mid : String) (m : Monster)
    (d : ℤ) (aid now : ℕ)
    (hfind : findMonster reg mid = some m) (hlive : m.state ≠ MonsterState.dead)
    (hs : max 1 (d - m.defense) < m.hp) :
    damageMonster reg mid d aid now =
      (setMonster reg mid
        { m with hp := m.hp - max 1 (d - m.defense),
                 target := some (toString aid), state := MonsterState.chasing },
       ⟨false, 0, 0⟩,
       [GameEvent.monsterDamaged m.position.mapId m.id (max 1 (d - m.defense))
          (m.hp - max 1 (d - m.defense)) m.maxHp]) := by
  have hpos : 0 < m.hp - max 1 (d - m.defense) := sub_pos.mpr hs
  have hH : max 0 (m.hp - max 1 (d - m.defense)) = m.hp - max 1 (d - m.defense) :=
    max_eq_right (le_of_lt hpos)
  simp only [damageMonster, hfind]
  rw [if_neg hlive]
  simp only [hH, hpos, if_true, not_le.mpr hpos, if_false]

/-- C1: damaging a live monster with hp h and defense f by d ≥ 1 sets its
hp to max(0, h − max(1, d − f)) and reports killed exactly when that new
hp is 0. -/
theorem damageMonster_hp_and_killed (reg : List Monster) (mid : String) (m : Monster)
    (d : ℤ) (aid now : ℕ)
    (hfind : findMonster reg mid = some m) (hlive : m.state ≠ MonsterState.dead)
    (hd : 1 ≤ d) :
    (∃ m', findMonster (damageMonster reg mid d aid now).1 mid = some m' ∧
        m'.hp = max 0 (m.hp - max 1 (d - m.defense))) ∧
    ((damageMonster reg mid d aid now).2.1.killed = true ↔
        max 0 (m.hp - max 1 (d - m.defense)) = 0) := by
  have hid := findMonster_id reg mid m hfind
  have hex : (findMonster reg mid).isSome := by rw [hfind]; rfl
  rcases le_or_lt m.hp (max 1 (d - m.defense)) with hk | hs
  · have hH : max 0 (m.hp - max 1 (d - m.defense)) = 0 :=
      max_eq_left (sub_nonpos.mpr hk)
    rw [damageMonster_live_kill reg mid m d aid now hfind hlive hk]
    constructor
    · exact ⟨_, findMonster_setMonster reg mid _ hex hid, by simp [hH]⟩
    · simp [hH]
  · have hpos : 0 < m.hp - max 1 (d - m.defense) := sub_pos.mpr hs
    have hH : max 0 (m.hp - max 1 (d - m.defense)) = m.hp - max 1 (d - m.defense) :=
      max_eq_right hpos.le
    rw [damageMonster_live_survive reg mid m d aid now hfind hlive hs]
    constructor
    · exact ⟨_, findMonster_setMonster reg mid _ hex hid, by simp [hH]⟩
    · simp [hH]
      exact hpos.ne'

/-- C1 witness: the spec scenario hp 50, defense 5, damage 20 resolves to
actual damage 15, new hp 35, not killed. -/
theorem damageMonster_hp_and_killed_witness :
    (∃ m', findMonster (damageMonster [gobFull] "m1" 20 7 1000).1 "m1" = some m' ∧
        m'.hp = max 0 (gobFull.hp - max 1 (20 - gobFull.defense))) ∧
    ((damageMonster [gobFull] "m1" 20 7 1000).2.1.killed = true ↔
        max 0 (gobFull.hp - max 1 (20 - gobFull.defense)) = 0) :=
  damageMonster_hp_and_killed [gobFull] "m1" gobFull 20 7 1000 (by decide) (by decide)
    (by decide)

/-- C2: a damageMonster call that drops a live monster's hp to exactly 0
returns killed with the monster's fixed experience and goldDrop, marks it
dead, clears its target, and schedules respawn exactly 30000 ms after the
kill. -/
theorem damageMonster_kill_payout (reg : List Monster) (mid : String) (m : Monster)
    (d : ℤ) (aid now : ℕ)
    (hfind : findMonster reg mid = some m) (hlive : m.state ≠ MonsterState.dead)
    (hzero : max 0 (m.hp - max 1 (d - m.defense)) = 0) :
    (damageMonster reg mid d aid now).2.1 =
      { killed := true, experience := m.experience, gold := m.goldDrop } ∧
    ∃ m', findMonster (damageMonster reg mid d aid now).1 mid = some m' ∧
      m'.state = MonsterState.dead ∧ m'.target = none ∧
      m'.respawnTime = some (now + 30000) := by
  have hid := findMonster_id reg mid m hfind
  have hex : (findMonster reg mid).isSome := by rw [hfind]; rfl
  have hk : m.hp ≤ max 1 (d - m.defense) := by
    by_contra hlt
    push_neg at hlt
    have hpos : 0 < m.hp - max 1 (d - m.defense) := sub_pos.mpr hlt
    rw [max_eq_right hpos.le] at hzero
    exact hpos.ne' hzero
  rw [damageMonster_live_kill reg mid m d aid now hfind hlive hk]
  exact ⟨rfl, _, findMonster_setMonster reg mid _ hex hid, rfl, rfl, rfl⟩

/-- C2 witness: the spec scenario hp 10, defense 5, damage 100 kills with
payout (25 exp, 5 gold) and schedules respawn at 1000 + 30000 ms. -/
theorem damageMonster_kill_payout_witness :
    (damageMonster [gobWeak] "m1" 100 7 1000).2.1 =
      { killed := true, experience := gobWeak.experience, gold := gobWeak.goldDrop } ∧
    ∃ m', findMonster (damageMonster [gobWeak] "m1" 100 7 1000).1 "m1" = some m' ∧
      m'.state = MonsterState.dead ∧ m'.target = none ∧
      m'.respawnTime = some (1000 + 30000) :=
  damageMonster_kill_payout [gobWeak] "m1" gobWeak 100 7 1000 (by decide) (by decide)
    (by decide)

/-- C3: damageMonster on an id that is missing from the registry or names a
dead monster is a no-op returning killed false with zero rewards, and in
particular a second call right after a killing call returns that zero
result and changes nothing. -/
theorem damageMonster_noop_on_missing_or_dead (reg : List Monster) (mid : String)
    (d : ℤ) (aid now : ℕ) :
    ((findMonster reg mid = none ∨
        ∃ m, findMonster reg mid = some m ∧ m.state = MonsterState.dead) →
      damageMonster reg mid d aid now = (reg, ⟨false, 0, 0⟩, [])) ∧
    (∀ d2 a2 n2, (damageMonster reg mid d aid now).2.1.killed = true →
      damageMonster (damageMonster reg mid d aid now).1 mid d2 a2 n2 =
        ((damageMonster reg mid d aid now).1, ⟨false, 0, 0⟩, [])) := by
  constructor
  · rintro (h | ⟨m, hfind, hdead⟩)
    · exact damageMonster_not_found reg mid d aid now h
    · exact damageMonster_dead reg mid m d aid now hfind hdead
  · intro d2 a2 n2 hkill
    cases hcase : findMonster reg mid with
    | none =>
      rw [damageMonster_not_found reg mid d aid now hcase] at hkill
      simp at hkill
    | some m =>
      by_cases hdead : m.state = MonsterState.dead
      · rw [damageMonster_dead reg mid m d aid now hcase hdead] at hkill
        simp at hkill
      · have hid := findMonster_id reg mid m hcase
        have hex : (findMonster reg mid).isSome := by rw [hcase]; rfl
        rcases le_or_lt m.hp (max 1 (d - m.defense)) with hk | hs
        · rw [damageMonster_live_kill reg mid m d aid now hcase hdead hk]
          exact damageMonster_dead _ mid _ d2 a2 n2
            (findMonster_setMonster reg mid _ hex hid) rfl
        · rw [damageMonster_live_survive reg mid m d aid now hcase hdead hs] at hkill
          simp at hkill

/-- C3 witness: the second of two immediate damageMonster calls on gobWeak
(the first of which kills it) is a zero-reward no-op. -/
theorem damageMonster_noop_on_missing_or_dead_witness :
    damageMonster (damageMonster [gobWeak] "m1" 100 7 1000).1 "m1" 100 7 2000 =
      ((damageMonster [gobWeak] "m1" 100 7 1000).1, ⟨false, 0, 0⟩, []) :=
  (damageMonster_noop_on_missing_or_dead [gobWeak] "m1" 100 7 1000).2 100 7 2000
    (by decide)

/-- C4: respawning a dead monster whose deadline has passed restores hp to
maxHp and mp to maxMp, returns it to its originalPosition, clears target
and respawnTime, sets state idle, and keeps the id in a registry of
unchanged size. -/
theorem respawnMonster_resets (reg : List Monster) (mid : String) (m : Monster)
    (now t : ℕ) (hfind : findMonster reg mid = some m)
    (hdead : m.state = MonsterState.dead) (htime : m.respawnTime = some t)
    (hdue : t < now) :
    ∃ m', findMonster (respawnMonster reg mid now).1 mid = some m' ∧
      m'.hp = m.maxHp ∧ m'.mp = m.maxMp ∧
      m'.position.x = m.originalPosition.1 ∧ m'.position.y = m.originalPosition.2 ∧
      m'.target = none ∧ m'.respawnTime = none ∧ m'.state = MonsterState.idle ∧
      m'.id = m.id ∧ (respawnMonster reg mid now).1.length = reg.length := by
  have hid := findMonster_id reg mid m hfind
  have hex : (findMonster reg mid).isSome := by rw [hfind]; rfl
  simp only [respawnMonster, hfind]
  exact ⟨respawnReset m now, findMonster_setMonster reg mid _ hex hid,
    rfl, rfl, rfl, rfl, rfl, rfl, rfl, rfl, by simp [setMonster]⟩

/-- C4 witness: respawning the dead goblin at t = 40000 (past its 31000
deadline) restores it in place. -/
theorem respawnMonster_resets_witness :
    ∃ m', findMonster (respawnMonster [gobDead] "m1" 40000).1 "m1" = some m' ∧
      m'.hp = gobDead.maxHp ∧ m'.mp = gobDead.maxMp ∧
      m'.position.x = gobDead.originalPosition.1 ∧
      m'.position.y = gobDead.originalPosition.2 ∧
      m'.target = none ∧ m'.respawnTime = none ∧ m'.state = MonsterState.idle ∧
      m'.id = gobDead.id ∧
      (respawnMonster [gobDead] "m1" 40000).1.length = [gobDead].length :=
  respawnMonster_resets [gobDead] "m1" gobDead 40000 31000 (by decide) (by decide)
    (by decide) (by decide)

/-- C5 counterexample: the single damageMonster call that kills gobWeak
broadcasts two events (monster_damaged then monster_died), not exactly
one. -/
theorem damageMonster_kill_emits_two_events :
    (damageMonster [gobWeak] "m1" 100 7 1000).2.2.length = 2 := by decide

/-- C5 amended: spawnMonster and a successful respawnMonster each emit
exactly one event; damageMonster emits exactly one monster_damaged on a
surviving hit, two events (monster_damaged then monster_died) on a killing
hit, and none on a missing or dead target. -/
theorem mutation_event_counts (reg : List Monster) (mid : String) (m : Monster)
    (tpl : MonsterTemplate) (mapId : ℕ) (newId : String) (rx ry lv : ℚ)
    (d : ℤ) (aid now : ℕ) :
    (spawnMonster reg tpl mapId newId rx ry lv now).2.length = 1 ∧
    (findMonster reg mid = some m → (respawnMonster reg mid now).2.length = 1) ∧
    (findMonster reg mid = some m → m.state ≠ MonsterState.dead →
      ((max 1 (d - m.defense) < m.hp →
          (damageMonster reg mid d aid now).2.2 =
            [GameEvent.monsterDamaged m.position.mapId m.id (max 1 (d - m.defense))
              (m.hp - max 1 (d - m.defense)) m.maxHp]) ∧
       (m.hp ≤ max 1 (d - m.defense) →
          (damageMonster reg mid d aid now).2.2.length = 2))) ∧
    ((findMonster reg mid = none ∨
        (findMonster reg mid = some m ∧ m.state = MonsterState.dead)) →
      (damageMonster reg mid d aid now).2.2 = []) := by
  refine ⟨rfl, ?_, ?_, ?_⟩
  · intro hfind
    simp [respawnMonster, hfind]
  · intro hfind hlive
    constructor
    · intro hs
      rw [damageMonster_live_survive reg mid m d aid now hfind hlive hs]
    · intro hk
      rw [damageMonster_live_kill reg mid m d aid now hfind hlive hk]
      rfl
  · rintro (h | ⟨hfind, hdead⟩)
    · rw [damageMonster_not_found reg mid d aid now h]
    · rw [damageMonster_dead reg mid m d aid now hfind hdead]

/-- C5 amended witness: concrete event lists for a spawn, a respawn, a
surviving hit, a killing hit, and a hit on a dead target. -/
theorem mutation_event_counts_witness :
    (spawnMonster [gobFull] goblinTemplate 1 "m9" 0 0 0 500).2.length = 1 ∧
    (respawnMonster [gobDead] "m1" 40000).2.length = 1 ∧
    (damageMonster [gobFull] "m1" 20 7 500).2.2 =
      [GameEvent.monsterDamaged gobFull.position.mapId gobFull.id
        (max 1 (20 - gobFull.defense)) (gobFull.hp - max 1 (20 - gobFull.defense))
        gobFull.maxHp] ∧
    (damageMonster [gobWeak] "m1" 100 7 500).2.2.length = 2 ∧
    (damageMonster [gobDead] "m1" 100 7 500).2.2 = [] :=
  ⟨(mutation_event_counts [gobFull] "m1" gobFull goblinTemplate 1 "m9" 0 0 0 20 7 500).1,
   (mutation_event_counts [gobDead] "m1" gobDead goblinTemplate 1 "m9" 0 0 0 100 7
      40000).2.1 (by decide),
   ((mutation_event_counts [gobFull] "m1" gobFull goblinTemplate 1 "m9" 0 0 0 20 7
      500).2.2.1 (by decide) (by decide)).1 (by decide),
   ((mutation_event_counts [gobWeak] "m1" gobWeak goblinTemplate 1 "m9" 0 0 0 100 7
      500).2.2.1 (by decide) (by decide)).2 (by decide),
   (mutation_event_counts [gobDead] "m1" gobDead goblinTemplate 1 "m9" 0 0 0 100 7
      500).2.2.2 (Or.inr ⟨by decide, by decide⟩)⟩

/-- C6 counterexample: performMonsterAttack clamps nothing: a monster with
attack 3 and damage roll 0 broadcasts monster_attack with damage −2 < 1. -/
theorem monsterAttack_damage_below_one :
    (performMonsterAttack gobFeeble 0 1).2 =
      [GameEvent.monsterAttack 1 "m1" "player_42" (-2)] ∧ (-2 : ℤ) < 1 := by
  refine ⟨?_, by decide⟩
  simp only [performMonsterAttack, monsterAttackDamage, gobFeeble, gobChasing, gobFull]
  norm_num

/-- C6 amended: the monster_attack damage is attack + ⌊10·roll⌋ − 5, so it
ranges over [attack − 5, attack + 4] (not attack ± 5) with no ≥ 1 clamp;
it is at least 1 whenever attack ≥ 6, which every monster spawned from the
catalog satisfies (minimum base attack 15). -/
theorem monsterAttack_damage_range (m : Monster) (tid : String) (dmgRoll contRoll : ℚ)
    (htarget : m.target = some tid) (h0 : 0 ≤ dmgRoll) (h1 : dmgRoll < 1) :
    (performMonsterAttack m dmgRoll contRoll).2 =
      [GameEvent.monsterAttack m.position.mapId m.id tid
        (monsterAttackDamage m.attack dmgRoll)] ∧
    m.attack - 5 ≤ monsterAttackDamage m.attack dmgRoll ∧
    monsterAttackDamage m.attack dmgRoll ≤ m.attack + 4 ∧
    (6 ≤ m.attack → 1 ≤ monsterAttackDamage m.attack dmgRoll) := by
  have hf0 : (0 : ℤ) ≤ ⌊dmgRoll * 10⌋ :=
    Int.floor_nonneg.mpr (mul_nonneg h0 (by norm_num))
  have hf9 : ⌊dmgRoll * 10⌋ ≤ 9 := by
    have hlt : dmgRoll * 10 < ((10 : ℤ) : ℚ) := by push_cast; nlinarith
    have h10 := Int.floor_lt.mpr hlt
    omega
  refine ⟨?_, ?_, ?_, ?_⟩
  · simp [performMonsterAttack, htarget]
  · simp only [monsterAttackDamage]; omega
  · simp only [monsterAttackDamage]; omega
  · intro h6; simp only [monsterAttackDamage]; omega

/-- C6 amended witness: gobChasing (attack 15) with damage roll 0 emits
damage 10, inside [attack − 5, attack + 4] and at least 1. -/
theorem monsterAttack_damage_range_witness :
    (performMonsterAttack gobChasing 0 1).2 =
      [GameEvent.monsterAttack gobChasing.position.mapId gobChasing.id "player_42"
        (monsterAttackDamage gobChasing.attack 0)] ∧
    gobChasing.attack - 5 ≤ monsterAttackDamage gobChasing.attack 0 ∧
    monsterAttackDamage gobChasing.attack 0 ≤ gobChasing.attack + 4 ∧
    1 ≤ monsterAttackDamage gobChasing.attack 0 :=
  ⟨(monsterAttack_damage_range gobChasing "player_42" 0 1 (by decide) (by decide)
      (by decide)).1,
   (monsterAttack_damage_range gobChasing "player_42" 0 1 (by decide) (by decide)
      (by decide)).2.1,
   (monsterAttack_damage_range gobChasing "player_42" 0 1 (by decide) (by decide)
      (by decide)).2.2.1,
   (monsterAttack_damage_range gobChasing "player_42" 0 1 (by decide) (by decide)
      (by decide)).2.2.2 (by decide)⟩

/-- C7: the 10-second chase give-up never fires under the 500 ms tick loop,
because updateMonsters restamps lastAction on every tick: a monster that
entered chasing with a target still holds that target (in the attacking
state) after 21 ticks spanning 10.5 seconds in which not a single
monster_attack event was emitted. -/
theorem chaseTarget_outlives_ten_seconds :
    (tickTrajectory gobChasing 0 500 quietDraws 21).1.target = some "player_42" ∧
    (tickTrajectory gobChasing 0 500 quietDraws 21).1.state = MonsterState.attacking ∧
    (tickTrajectory gobChasing 0 500 quietDraws 21).2 = [] ∧
    10000 < 500 * 21 :=
  ⟨by decide, by decide, by decide, by norm_num⟩

/-- C8: with a sender holding a selected character and a valid message,
channel map delivers exactly to the open sessions whose character is on
the sender's character's map, channel global delivers to every open
session, and any other channel echoes to the sender alone. -/
theorem handleChat_channel_semantics (sessions : List Session) (senderWs : ℕ)
    (s : Session) (c : CharacterInfo) (message : String)
    (hfind : sessions.find? (fun x => x.wsId == senderWs) = some s)
    (hchar : s.character = some c)
    (hne : message ≠ "") (hlen : message.length ≤ 500) :
    handleChatRecipients sessions senderWs message "map" =
      ((sessions.filter fun x => sessionOnMap x c.mapId && x.wsOpen).map fun x => x.wsId) ∧
    handleChatRecipients sessions senderWs message "global" =
      ((sessions.filter fun x => x.wsOpen).map fun x => x.wsId) ∧
    (∀ channel, channel ≠ "global" → channel ≠ "map" →
      handleChatRecipients sessions senderWs message channel =
        if s.wsOpen then [senderWs] else []) := by
  have hmsg : ¬ (message = "" ∨ message.length > 500) := by
    push_neg
    exact ⟨hne, by omega⟩
  refine ⟨?_, ?_, ?_⟩
  · simp only [handleChatRecipients, hfind, hchar]
    rw [if_neg hmsg]
    simp [broadcastToMapRecipients]
  · simp only [handleChatRecipients, hfind, hchar]
    rw [if_neg hmsg]
    simp [broadcastRecipients]
  · intro channel hg hm
    simp only [handleChatRecipients, hfind, hchar]
    rw [if_neg hmsg, if_neg hg, if_neg hm]

/-- C8 witness: in demoSessions, a map message from ws 1 reaches the open
map-1 sessions, a global message reaches every open session, and a
whisper-channel message echoes to the sender. -/
theorem handleChat_channel_semantics_witness :
    handleChatRecipients demoSessions 1 "hi" "map" =
      ((demoSessions.filter fun x => sessionOnMap x 1 && x.wsOpen).map fun x => x.wsId) ∧
    handleChatRecipients demoSessions 1 "hi" "global" =
      ((demoSessions.filter fun x => x.wsOpen).map fun x => x.wsId) ∧
    handleChatRecipients demoSessions 1 "hi" "whisper" =
      (if senderSession.wsOpen then [1] else []) :=
  ⟨(handleChat_channel_semantics demoSessions 1 senderSession ⟨100, "Ash", 1⟩ "hi"
      (by decide) (by decide) (by decide) (by decide)).1,
   (handleChat_channel_semantics demoSessions 1 senderSession ⟨100, "Ash", 1⟩ "hi"
      (by decide) (by decide) (by decide) (by decide)).2.1,
   (handleChat_channel_semantics demoSessions 1 senderSession ⟨100, "Ash", 1⟩ "hi"
      (by decide) (by decide) (by decide) (by decide)).2.2 "whisper"
      (by decide) (by decide)⟩

/-- spawnMonster appends exactly one non-dead (idle) monster carrying the
target map, raising that map's census by one and no other map's. -/
theorem monsterCountOnMap_spawnMonster (reg : List Monster) (t : MonsterTemplate)
    (mapId k : ℕ) (newId : String) (rx ry lv : ℚ) (now : ℕ) :
    monsterCountOnMap (spawnMonster reg t mapId newId rx ry lv now).1 k =
      monsterCountOnMap reg k + (if k = mapId then 1 else 0) := by
  by_cases h : k = mapId <;>
    simp [spawnMonster, monsterCountOnMap, List.filter_append, h, eq_comm]

/-- trySpawnMonster either leaves the registry alone or spawns exactly one
monster on its target map. -/
theorem monsterCountOnMap_trySpawnMonster (reg : List Monster) (mapId k : ℕ)
    (d : SpawnDraws) (now : ℕ) :
    monsterCountOnMap (trySpawnMonster reg mapId d now).1 k = monsterCountOnMap reg k ∨
    monsterCountOnMap (trySpawnMonster reg mapId d now).1 k =
      monsterCountOnMap reg k + (if k = mapId then 1 else 0) := by
  simp only [trySpawnMonster]
  split
  · exact Or.inl rfl
  · split
    · exact Or.inl rfl
    · split
      · exact Or.inl rfl
      · exact Or.inr (monsterCountOnMap_spawnMonster reg _ mapId k d.newId d.posRollX
          d.posRollY d.levelRoll now)

/-- Census facts for one trySpawnMonster call: the census never shrinks,
grows by at most one on the target map, and is untouched on every other
map. -/
theorem trySpawn_census_facts (reg : List Monster) (mapId k : ℕ)
    (d : SpawnDraws) (now : ℕ) :
    monsterCountOnMap reg k ≤ monsterCountOnMap (trySpawnMonster reg mapId d now).1 k ∧
    monsterCountOnMap (trySpawnMonster reg mapId d now).1 k ≤
      monsterCountOnMap reg k + (if k = mapId then 1 else 0) ∧
    (k ≠ mapId → monsterCountOnMap (trySpawnMonster reg mapId d now).1 k =
      monsterCountOnMap reg k) := by
  rcases monsterCountOnMap_trySpawnMonster reg mapId k d now with h | h
  · rw [h]
    exact ⟨le_refl _, Nat.le_add_right _ _, fun _ => rfl⟩
  · rw [h]
    refine ⟨Nat.le_add_right _ _, le_refl _, fun hne => ?_⟩
    simp [hne]

/-- Census facts for one spawnStep: the census never shrinks, the target
map's census grows by at most one and only when its base census was below
the cap, and other maps are untouched. -/
theorem spawnStep_census (reg : List Monster) (now : ℕ) (draws : ℕ → SpawnDraws)
    (acc : List Monster × List GameEvent) (mapId k : ℕ) :
    monsterCountOnMap acc.1 k ≤
      monsterCountOnMap (spawnStep reg now draws acc mapId).1 k ∧
    monsterCountOnMap (spawnStep reg now draws acc mapId).1 k ≤
      monsterCountOnMap acc.1 k +
        (if k = mapId ∧ monsterCountOnMap reg mapId < 20 then 1 else 0) ∧
    (k ≠ mapId → monsterCountOnMap (spawnStep reg now draws acc mapId).1 k =
      monsterCountOnMap acc.1 k) := by
  obtain ⟨h1, h2, h3⟩ := trySpawn_census_facts acc.1 mapId k (draws mapId) now
  unfold spawnStep
  by_cases hc : monsterCountOnMap reg mapId < 20
  · simp only [if_pos hc]
    refine ⟨h1, ?_, fun hk => h3 hk⟩
    by_cases hk : k = mapId
    · subst hk
      simpa [hc] using h2
    · rw [h3 hk]
      simp [hk]
  · simp only [if_neg hc]
    refine ⟨le_refl _, ?_, fun _ => trivial⟩
    simp [hc]

/-- Census facts for the spawnStep fold over any duplicate-free list of
target maps: the census never shrinks, a map's census grows by at most one
and only when its base census was below the cap, and maps outside the list
are untouched. -/
theorem spawnFold_census (reg : List Monster) (now : ℕ) (draws : ℕ → SpawnDraws)
    (maps : List ℕ) (hnd : maps.Nodup) (acc : List Monster × List GameEvent) (k : ℕ) :
    monsterCountOnMap acc.1 k ≤
      monsterCountOnMap (maps.foldl (spawnStep reg now draws) acc).1 k ∧
    monsterCountOnMap (maps.foldl (spawnStep reg now draws) acc).1 k ≤
      monsterCountOnMap acc.1 k +
        (if k ∈ maps ∧ monsterCountOnMap reg k < 20 then 1 else 0) ∧
    (k ∉ maps →
      monsterCountOnMap (maps.foldl (spawnStep reg now draws) acc).1 k =
        monsterCountOnMap acc.1 k) := by
  induction maps generalizing acc with
  | nil => simp
  | cons m ms ih =>
    obtain ⟨hm, hms⟩ := List.nodup_cons.mp hnd
    obtain ⟨s1, s2, s3⟩ := spawnStep_census reg now draws acc m k
    obtain ⟨f1, f2, f3⟩ := ih hms (spawnStep reg now draws acc m)
    rw [List.foldl_cons]
    refine ⟨le_trans s1 f1, ?_, ?_⟩
    · by_cases hk : k = m
      · subst hk
        rw [f3 hm]
        calc monsterCountOnMap (spawnStep reg now draws acc k).1 k
            ≤ monsterCountOnMap acc.1 k +
              (if k = k ∧ monsterCountOnMap reg k < 20 then 1 else 0) := s2
          _ ≤ monsterCountOnMap acc.1 k +
              (if k ∈ k :: ms ∧ monsterCountOnMap reg k < 20 then 1 else 0) := by
              simp [List.mem_cons_self]
      · have hmem : (k ∈ m :: ms ∧ monsterCountOnMap reg k < 20) ↔
            (k ∈ ms ∧ monsterCountOnMap reg k < 20) := by
          simp [List.mem_cons, hk]
        rw [s3 hk] at f2
        calc monsterCountOnMap (ms.foldl (spawnStep reg now draws)
              (spawnStep reg now draws acc m)).1 k
            ≤ monsterCountOnMap acc.1 k +
              (if k ∈ ms ∧ monsterCountOnMap reg k < 20 then 1 else 0) := f2
          _ ≤ monsterCountOnMap acc.1 k +
              (if k ∈ m :: ms ∧ monsterCountOnMap reg k < 20 then 1 else 0) := by
              rw [if_congr hmem rfl rfl]
    · intro hni
      have hkm : k ≠ m := fun h => hni (h ▸ List.mem_cons_self m ms)
      have hkms : k ∉ ms := fun h => hni (List.mem_cons_of_mem m h)
      rw [f3 hkms, s3 hkm]

/-- C9: one execution of checkSpawning attempts at most one spawn per map,
and only on maps whose non-dead census at the start of the check was
strictly below 20: a census at most 20 stays at most 20, no census grows
by more than one, and a census already at 20 or more is unchanged. -/
theorem checkSpawning_census_cap (reg : List Monster) (last now : ℕ)
    (draws : ℕ → SpawnDraws) (k : ℕ) (hk : monsterCountOnMap reg k ≤ 20) :
    monsterCountOnMap (checkSpawning reg last now draws).1 k ≤ 20 ∧
    monsterCountOnMap (checkSpawning reg last now draws).1 k ≤
      monsterCountOnMap reg k + 1 ∧
    (20 ≤ monsterCountOnMap reg k →
      monsterCountOnMap (checkSpawning reg last now draws).1 k =
        monsterCountOnMap reg k) := by
  unfold checkSpawning
  split
  · exact ⟨hk, Nat.le_add_right _ _, fun _ => rfl⟩
  · obtain ⟨g1, g2, g3⟩ := spawnFold_census reg now draws (List.range' 1 3)
      (by decide) (reg, []) k
    dsimp only at g1 g2 g3
    by_cases hm : k ∈ List.range' 1 3 ∧ monsterCountOnMap reg k < 20
    · rw [if_pos hm] at g2
      obtain ⟨-, hlt⟩ := hm
      exact ⟨by omega, by omega, fun h20 => by omega⟩
    · rw [if_neg hm] at g2
      exact ⟨by omega, by omega, fun h20 => by omega⟩

/-- C9 witness: a one-goblin registry ticked through a due spawn check
keeps every census fact (map 1 census is 1 ≤ 20 before the check). -/
theorem checkSpawning_census_cap_witness :
    monsterCountOnMap (checkSpawning [gobFull] 0 6000 demoSpawnDraws).1 1 ≤ 20 ∧
    monsterCountOnMap (checkSpawning [gobFull] 0 6000 demoSpawnDraws).1 1 ≤
      monsterCountOnMap [gobFull] 1 + 1 ∧
    (20 ≤ monsterCountOnMap [gobFull] 1 →
      monsterCountOnMap (checkSpawning [gobFull] 0 6000 demoSpawnDraws).1 1 =
        monsterCountOnMap [gobFull] 1) :=
  checkSpawning_census_cap [gobFull] 0 6000 demoSpawnDraws 1 (by decide)

/-- Normal form of the getStats accumulation pass: the total counts the
non-dead monsters, and each histogram entry counts the non-dead monsters
carrying that key. -/
theorem getStats_go (reg : List Monster) (acc : ℕ × (ℕ → ℕ) × (MonsterType → ℕ)) :
    reg.foldl
      (fun s m =>
        if m.state ≠ MonsterState.dead then
          (s.1 + 1,
           Function.update s.2.1 m.position.mapId (s.2.1 m.position.mapId + 1),
           Function.update s.2.2 m.type (s.2.2 m.type + 1))
        else s) acc =
    (acc.1 + (reg.filter fun m => decide (m.state ≠ MonsterState.dead)).length,
     fun i => acc.2.1 i +
       (reg.filter fun m =>
         decide (m.state ≠ MonsterState.dead ∧ m.position.mapId = i)).length,
     fun ty => acc.2.2 ty +
       (reg.filter fun m =>
         decide (m.state ≠ MonsterState.dead ∧ m.type = ty)).length) := by
  induction reg generalizing acc with
  | nil => simp
  | cons a l ih =>
    rw [List.foldl_cons, ih]
    by_cases ha : a.state = MonsterState.dead
    · simp [ha, List.filter_cons]
    · simp only [ha, ne_eq, not_false_iff, if_pos, List.filter_cons, Prod.mk.injEq]
      refine ⟨?_, funext fun i => ?_, funext fun ty => ?_⟩
      · simp [ha]
        omega
      · by_cases hi : i = a.position.mapId
        · subst hi
          simp [Function.update_same, ha]
          omega
        · have hi' : ¬ a.position.mapId = i := fun h => hi h.symm
          simp [Function.update_apply, hi, hi', ha]
      · by_cases hty : ty = a.type
        · subst hty
          simp [Function.update_same, ha]
          omega
        · have hty' : ¬ a.type = ty := fun h => hty h.symm
          simp [Function.update_apply, hty, hty', ha]

/-- Splitting a list's length over the distinct values of a key: summing,
over each key value that occurs in the list, the number of elements that
carry it recovers the length. -/
theorem length_eq_sum_filter_keys {α β : Type} [DecidableEq β]
    (l : List α) (key : α → β) :
    l.length =
      ∑ b in (l.map key).toFinset, (l.filter fun x => decide (key x = b)).length := by
  induction l with
  | nil => simp
  | cons a t ih =>
    have hsummand : ∀ b : β,
        ((a :: t).filter fun x => decide (key x = b)).length =
          (t.filter fun x => decide (key x = b)).length + (if key a = b then 1 else 0) := by
      intro b
      by_cases h : key a = b <;> simp [List.filter_cons, h]
    simp only [List.map_cons, List.toFinset_cons, List.length_cons]
    rw [Finset.sum_congr rfl fun b _ => hsummand b, Finset.sum_add_distrib]
    have hite : (∑ b in insert (key a) (t.map key).toFinset,
        (if key a = b then 1 else 0)) = 1 := by
      rw [Finset.sum_ite_eq]
      simp
    rw [hite]
    by_cases hmem : key a ∈ (t.map key).toFinset
    · rw [Finset.insert_eq_self.mpr hmem, ← ih]
    · rw [Finset.sum_insert hmem]
      have hnil : t.filter (fun x => decide (key x = key a)) = [] := by
        rw [List.filter_eq_nil_iff]
        intro x hx
        simp only [decide_eq_true_eq]
        intro hkey
        exact hmem (List.mem_toFinset.mpr (List.mem_map.mpr ⟨x, hx, hkey⟩))
      rw [hnil]
      simp [← ih]

/-- C10: getStats is consistent with getActiveMonsters: totalMonsters is
the length of the unfiltered getActiveMonsters result and equals both the
sum of the per-map histogram over the maps that occur and the sum of the
per-type histogram over the types that occur; dead monsters appear in none
of them. -/
theorem getStats_consistent (reg : List Monster) :
    (getStats reg).1 = (getActiveMonsters reg none).length ∧
    (getStats reg).1 =
      ∑ i in ((getActiveMonsters reg none).map fun m => m.position.mapId).toFinset,
        (getStats reg).2.1 i ∧
    (getStats reg).1 =
      ∑ ty in ((getActiveMonsters reg none).map fun m => m.type).toFinset,
        (getStats reg).2.2 ty ∧
    (∀ m ∈ reg, m.state = MonsterState.dead → m ∉ getActiveMonsters reg none) := by
  have hstats :
      getStats reg =
        ((reg.filter fun m => decide (m.state ≠ MonsterState.dead)).length,
         fun i => (reg.filter fun m =>
           decide (m.state ≠ MonsterState.dead ∧ m.position.mapId = i)).length,
         fun ty => (reg.filter fun m =>
           decide (m.state ≠ MonsterState.dead ∧ m.type = ty)).length) := by
    have h := getStats_go reg (0, fun _ => 0, fun _ => 0)
    simpa [getStats] using h
  have hact : getActiveMonsters reg none =
      reg.filter fun m => decide (m.state ≠ MonsterState.dead) := rfl
  have h1 : (getStats reg).1 =
      (reg.filter fun m => decide (m.state ≠ MonsterState.dead)).length := by
    rw [hstats]
  have hmap : ∀ i, (getStats reg).2.1 i =
      (reg.filter fun m =>
        decide (m.state ≠ MonsterState.dead ∧ m.position.mapId = i)).length := by
    intro i; rw [hstats]
  have htype : ∀ ty, (getStats reg).2.2 ty =
      (reg.filter fun m =>
        decide (m.state ≠ MonsterState.dead ∧ m.type = ty)).length := by
    intro ty; rw [hstats]
  refine ⟨by rw [h1, hact], ?_, ?_, ?_⟩
  · rw [h1]
    rw [length_eq_sum_filter_keys
      (reg.filter fun m => decide (m.state ≠ MonsterState.dead))
      (fun m => m.position.mapId)]
    refine Finset.sum_congr rfl fun i _ => ?_
    rw [hmap i, List.filter_filter]
    have hfun : (fun a : Monster =>
          decide (a.position.mapId = i) && decide (a.state ≠ MonsterState.dead)) =
        (fun m : Monster => decide (m.state ≠ MonsterState.dead ∧ m.position.mapId = i)) := by
      funext m
      by_cases hm1 : m.state = MonsterState.dead <;>
        by_cases hm2 : m.position.mapId = i <;> simp [hm1, hm2]
    rw [hfun]
  · rw [h1]
    rw [length_eq_sum_filter_keys
      (reg.filter fun m => decide (m.state ≠ MonsterState.dead))
      (fun m => m.type)]
    refine Finset.sum_congr rfl fun ty _ => ?_
    rw [htype ty, List.filter_filter]
    have hfun : (fun a : Monster =>
          decide (a.type = ty) && decide (a.state ≠ MonsterState.dead)) =
        (fun m : Monster => decide (m.state ≠ MonsterState.dead ∧ m.type = ty)) := by
      funext m
      by_cases hm1 : m.state = MonsterState.dead <;>
        by_cases hm2 : m.type = ty <;> simp [hm1, hm2]
    rw [hfun]
  · intro m _ hd
    rw [hact]
    simp [List.mem_filter, hd]

/-- C10 witness: the two-goblin registry with one dead member has total 1,
per-map and per-type sums 1, and its dead member in no listing. -/
theorem getStats_consistent_witness :
    (getStats [gobFull, gobDead]).1 =
      (getActiveMonsters [gobFull, gobDead] none).length ∧
    (getStats [gobFull, gobDead]).1 =
      ∑ i in ((getActiveMonsters [gobFull, gobDead] none).map
          fun m => m.position.mapId).toFinset,
        (getStats [gobFull, gobDead]).2.1 i ∧
    (getStats [gobFull, gobDead]).1 =
      ∑ ty in ((getActiveMonsters [gobFull, gobDead] none).map
          fun m => m.type).toFinset,
        (getStats [gobFull, gobDead]).2.2 ty ∧
    gobDead ∉ getActiveMonsters [gobFull, gobDead] none :=
  ⟨(getStats_consistent [gobFull, gobDead]).1,
   (getStats_consistent [gobFull, gobDead]).2.1,
   (getStats_consistent [gobFull, gobDead]).2.2.1,
   (getStats_consistent [gobFull, gobDead]).2.2.2 gobDead (by decide) (by decide)⟩
